import Mathlib

/-!
Shallow embedding of `src/epl_backend/src/lib.rs`, a record-management
canister with CRUD handlers for Team, Coach and Stadium records (plus a
dormant Match record type), a shared auto-incrementing id counter held in a
stable `Cell` on memory region 0, and four `StableBTreeMap` storages.

In the source, all four storages are initialized on the same virtual
memory, `MemoryId::new(1)` (lib.rs lines 193-211), so the four maps operate
over one shared B-tree region: a value inserted through one storage is
visible, as raw bytes, through every other storage.  A lookup through the
wrong storage finds those bytes and `Decode!(..).unwrap()` panics (the
record types have disjoint required candid fields), which on the IC traps
and rolls the message back.  The state is therefore modelled as the counter
(region 0) plus a single partial map `region1` holding kind-tagged values;
a wrong-kind decode is modelled as the `Res.trap` outcome with the
pre-call state (IC message atomicity).
-/

namespace Epl

/-- `struct Team` (lib.rs 16-21): id is u64, modelled on ℕ. -/
structure Team where
  id : Nat
  name : String
  manager : String
  stadium : String
deriving DecidableEq

/-- `struct Coach` (lib.rs 40-44). -/
structure Coach where
  id : Nat
  name : String
  team : String
deriving DecidableEq

/-- `struct Stadium` (lib.rs 63-68): capacity is u32, modelled on ℕ. -/
structure Stadium where
  id : Nat
  name : String
  location : String
  capacity : Nat
deriving DecidableEq

/-- `struct Match` (lib.rs 87-93); it has a store but no handlers. -/
structure Match where
  id : Nat
  home_team : String
  away_team : String
  venue : String
  match_date : Nat
deriving DecidableEq

/-- `struct TeamPayload` (lib.rs 112-116). -/
structure TeamPayload where
  name : String
  manager : String
  stadium : String
deriving DecidableEq

/-- `struct CoachPayload` (lib.rs 130-133). -/
structure CoachPayload where
  name : String
  team : String
deriving DecidableEq

/-- `struct StadiumPayload` (lib.rs 146-150). -/
structure StadiumPayload where
  name : String
  location : String
  capacity : Nat
deriving DecidableEq

/-- `enum Error` (lib.rs 216-219). -/
inductive Error where
  | NotFound (msg : String)
  | EmptyFields (msg : String)
deriving DecidableEq

/-- Outcome of one exposed call: the Rust `Result<T, Error>`, plus `trap`
for a candid `Decode!(..).unwrap()` panic (wrong-kind bytes found through
an aliased storage). -/
inductive Res (α : Type) where
  | ok (a : α)
  | err (e : Error)
  | trap
deriving DecidableEq

/-- The bytes stored in memory region 1, tagged by the record kind that
encoded them.  Decoding through the right storage succeeds; through any
other storage it panics (each record type requires candid fields the
others lack). -/
inductive RawVal where
  | teamVal (t : Team)
  | coachVal (c : Coach)
  | stadiumVal (s : Stadium)
  | matchVal (m : Match)
deriving DecidableEq

/-- The id field of the record underlying a stored value. -/
def rawId : RawVal → Nat
  | .teamVal t => t.id
  | .coachVal c => c.id
  | .stadiumVal s => s.id
  | .matchVal m => m.id

/-- Canister state: `ID_COUNTER` (a u64 `Cell` on region 0, initialized to
0, lib.rs 188-191) and the one B-tree region that `TEAM_STORAGE`,
`COACH_STORAGE`, `STADIUM_STORAGE` and `MATCH_STORAGE` all view through
`MemoryId::new(1)` (lib.rs 193-211). -/
structure CanisterState where
  counter : Nat
  region1 : Nat → Option RawVal

/-- Fresh canister state: counter 0, empty region. -/
def freshState : CanisterState :=
  { counter := 0, region1 := fun _ => none }

/-- `StableBTreeMap::insert` at a key (the write that every storage's
`insert` performs on region 1). -/
def setEntry (r : Nat → Option RawVal) (k : Nat) (v : RawVal) :
    Nat → Option RawVal :=
  fun k' => if k' = k then some v else r k'

/-- `StableBTreeMap::remove` at a key. -/
def removeEntry (r : Nat → Option RawVal) (k : Nat) : Nat → Option RawVal :=
  fun k' => if k' = k then none else r k'

/-- `add_team` (lib.rs 223-249), with the outcome of the
`counter.borrow_mut().set(current_value + 1)` call made explicit: the
source discards its `Result` (`let _ = ...`), so when the set fails the
body continues unchanged with the counter not bumped.  `setOk = true` is
the normal path.  The `insert` decodes any previous value at the key as a
`Team`, so wrong-kind bytes there trap. -/
def add_team_core (setOk : Bool) (payload : TeamPayload) (s : CanisterState) :
    Res Team × CanisterState :=
  if payload.name = "" ∨ payload.manager = "" ∨ payload.stadium = "" then
    (.err (.EmptyFields "Please fill in all the required fields to add a team"), s)
  else
    let current_value := s.counter
    let counter' := if setOk then current_value + 1 else current_value
    let id := current_value + 1
    let team : Team :=
      { id := id, name := payload.name, manager := payload.manager,
        stadium := payload.stadium }
    match s.region1 id with
    | some (.teamVal _) =>
        (.ok team, { counter := counter', region1 := setEntry s.region1 id (.teamVal team) })
    | some _ => (.trap, s)
    | none =>
        (.ok team, { counter := counter', region1 := setEntry s.region1 id (.teamVal team) })

/-- `add_team` as exposed (counter set succeeds). -/
def add_team (payload : TeamPayload) (s : CanisterState) :
    Res Team × CanisterState :=
  add_team_core true payload s

/-- `get_team` (lib.rs 253-260): lookup through `TEAM_STORAGE`; a value of
another kind at the key fails the candid decode. -/
def get_team (id : Nat) (s : CanisterState) : Res Team × CanisterState :=
  match s.region1 id with
  | some (.teamVal t) => (.ok t, s)
  | some _ => (.trap, s)
  | none =>
      (.err (.NotFound ("Team with ID " ++ toString id ++ " can not be found")), s)

/-- `delete_team` (lib.rs 264-274): `remove` returns (hence decodes) the
prior value; wrong-kind bytes trap, rolling the removal back. -/
def delete_team (id : Nat) (s : CanisterState) : Res Unit × CanisterState :=
  match s.region1 id with
  | some (.teamVal _) => (.ok (), { s with region1 := removeEntry s.region1 id })
  | some _ => (.trap, s)
  | none => (.err (.NotFound ("Team with ID " ++ toString id ++ " not found")), s)

/-- `update_team` (lib.rs 278-310): validate first, then look up, copy the
existing record, overwrite the non-id fields, re-insert under the same
key. -/
def update_team (id : Nat) (payload : TeamPayload) (s : CanisterState) :
    Res Team × CanisterState :=
  if payload.name = "" ∨ payload.manager = "" ∨ payload.stadium = "" then
    (.err (.EmptyFields "You must fill all of the required fields"), s)
  else
    match s.region1 id with
    | some (.teamVal existing_team) =>
        let updated_team : Team :=
          { existing_team with
            name := payload.name
            manager := payload.manager
            stadium := payload.stadium }
        (.ok updated_team,
          { s with region1 := setEntry s.region1 id (.teamVal updated_team) })
    | some _ => (.trap, s)
    | none => (.err (.NotFound ("Team with ID " ++ toString id ++ " not found")), s)

/-- `add_coach` (lib.rs 314-336), counter-set outcome explicit as in
`add_team_core`. -/
def add_coach_core (setOk : Bool) (payload : CoachPayload) (s : CanisterState) :
    Res Coach × CanisterState :=
  if payload.name = "" ∨ payload.team = "" then
    (.err (.EmptyFields "You must fill in all the required fields"), s)
  else
    let current_value := s.counter
    let counter' := if setOk then current_value + 1 else current_value
    let id := current_value + 1
    let coach : Coach := { id := id, name := payload.name, team := payload.team }
    match s.region1 id with
    | some (.coachVal _) =>
        (.ok coach, { counter := counter', region1 := setEntry s.region1 id (.coachVal coach) })
    | some _ => (.trap, s)
    | none =>
        (.ok coach, { counter := counter', region1 := setEntry s.region1 id (.coachVal coach) })

/-- `add_coach` as exposed. -/
def add_coach (payload : CoachPayload) (s : CanisterState) :
    Res Coach × CanisterState :=
  add_coach_core true payload s

/-- `get_coach` (lib.rs 340-347). -/
def get_coach (id : Nat) (s : CanisterState) : Res Coach × CanisterState :=
  match s.region1 id with
  | some (.coachVal c) => (.ok c, s)
  | some _ => (.trap, s)
  | none =>
      (.err (.NotFound ("Coach with ID " ++ toString id ++ " can not be found")), s)

/-- `delete_coach` (lib.rs 351-361). -/
def delete_coach (id : Nat) (s : CanisterState) : Res Unit × CanisterState :=
  match s.region1 id with
  | some (.coachVal _) => (.ok (), { s with region1 := removeEntry s.region1 id })
  | some _ => (.trap, s)
  | none => (.err (.NotFound ("Coach with ID " ++ toString id ++ " not found")), s)

/-- `update_coach` (lib.rs 365-393). -/
def update_coach (id : Nat) (payload : CoachPayload) (s : CanisterState) :
    Res Coach × CanisterState :=
  if payload.name = "" ∨ payload.team = "" then
    (.err (.EmptyFields "You must fill in all the required fields"), s)
  else
    match s.region1 id with
    | some (.coachVal existing_coach) =>
        let updated_coach : Coach :=
          { existing_coach with name := payload.name, team := payload.team }
        (.ok updated_coach,
          { s with region1 := setEntry s.region1 id (.coachVal updated_coach) })
    | some _ => (.trap, s)
    | none => (.err (.NotFound ("Coach with ID " ++ toString id ++ " not found")), s)

/-- `add_stadium` (lib.rs 397-423), counter-set outcome explicit. -/
def add_stadium_core (setOk : Bool) (payload : StadiumPayload)
    (s : CanisterState) : Res Stadium × CanisterState :=
  if payload.name = "" ∨ payload.location = "" ∨ payload.capacity = 0 then
    (.err (.EmptyFields "Please fill in all the required fields"), s)
  else
    let current_value := s.counter
    let counter' := if setOk then current_value + 1 else current_value
    let id := current_value + 1
    let stadium : Stadium :=
      { id := id, name := payload.name, location := payload.location,
        capacity := payload.capacity }
    match s.region1 id with
    | some (.stadiumVal _) =>
        (.ok stadium,
          { counter := counter', region1 := setEntry s.region1 id (.stadiumVal stadium) })
    | some _ => (.trap, s)
    | none =>
        (.ok stadium,
          { counter := counter', region1 := setEntry s.region1 id (.stadiumVal stadium) })

/-- `add_stadium` as exposed. -/
def add_stadium (payload : StadiumPayload) (s : CanisterState) :
    Res Stadium × CanisterState :=
  add_stadium_core true payload s

/-- `get_stadium` (lib.rs 427-434). -/
def get_stadium (id : Nat) (s : CanisterState) : Res Stadium × CanisterState :=
  match s.region1 id with
  | some (.stadiumVal st) => (.ok st, s)
  | some _ => (.trap, s)
  | none => (.err (.NotFound ("Stadium with ID " ++ toString id ++ " not found")), s)

/-- `update_stadium` (lib.rs 438-464). -/
def update_stadium (id : Nat) (payload : StadiumPayload) (s : CanisterState) :
    Res Stadium × CanisterState :=
  if payload.name = "" ∨ payload.location = "" ∨ payload.capacity = 0 then
    (.err (.EmptyFields "Please fill in all the required fields"), s)
  else
    match s.region1 id with
    | some (.stadiumVal existing_stadium) =>
        let updated_stadium : Stadium :=
          { existing_stadium with
            name := payload.name
            location := payload.location
            capacity := payload.capacity }
        (.ok updated_stadium,
          { s with region1 := setEntry s.region1 id (.stadiumVal updated_stadium) })
    | some _ => (.trap, s)
    | none => (.err (.NotFound ("Stadium with ID " ++ toString id ++ " not found")), s)

/-- `delete_stadium` (lib.rs 468-478). -/
def delete_stadium (id : Nat) (s : CanisterState) : Res Unit × CanisterState :=
  match s.region1 id with
  | some (.stadiumVal _) => (.ok (), { s with region1 := removeEntry s.region1 id })
  | some _ => (.trap, s)
  | none => (.err (.NotFound ("Stadium with ID " ++ toString id ++ " not found")), s)

/-! ### Operation algebra

One constructor per exposed handler, so that runs from the fresh state and
interleavings of entity kinds can be quantified over. -/

/-- One call to one of the twelve exposed handlers. -/
inductive Op where
  | addTeam (p : TeamPayload)
  | getTeam (id : Nat)
  | updateTeam (id : Nat) (p : TeamPayload)
  | deleteTeam (id : Nat)
  | addCoach (p : CoachPayload)
  | getCoach (id : Nat)
  | updateCoach (id : Nat) (p : CoachPayload)
  | deleteCoach (id : Nat)
  | addStadium (p : StadiumPayload)
  | getStadium (id : Nat)
  | updateStadium (id : Nat) (p : StadiumPayload)
  | deleteStadium (id : Nat)

/-- The state after one call (a trapped call leaves the state as it was:
IC message atomicity). -/
def step (op : Op) (s : CanisterState) : CanisterState :=
  match op with
  | .addTeam p => (add_team p s).2
  | .getTeam id => (get_team id s).2
  | .updateTeam id p => (update_team id p s).2
  | .deleteTeam id => (delete_team id s).2
  | .addCoach p => (add_coach p s).2
  | .getCoach id => (get_coach id s).2
  | .updateCoach id p => (update_coach id p s).2
  | .deleteCoach id => (delete_coach id s).2
  | .addStadium p => (add_stadium p s).2
  | .getStadium id => (get_stadium id s).2
  | .updateStadium id p => (update_stadium id p s).2
  | .deleteStadium id => (delete_stadium id s).2

/-- Run a list of calls in order. -/
def run : List Op → CanisterState → CanisterState
  | [], s => s
  | op :: rest, s => run rest (step op s)

/-- The id returned by `op` in state `s` when `op` is a successful
`add_*` call, `none` otherwise. -/
def addId (op : Op) (s : CanisterState) : Option Nat :=
  match op with
  | .addTeam p =>
      match (add_team p s).1 with
      | .ok t => some t.id
      | _ => none
  | .addCoach p =>
      match (add_coach p s).1 with
      | .ok c => some c.id
      | _ => none
  | .addStadium p =>
      match (add_stadium p s).1 with
      | .ok st => some st.id
      | _ => none
  | _ => none

/-- The ids returned by the successful `add_*` calls of a run, in call
order. -/
def issuedIds : List Op → CanisterState → List Nat
  | [], _ => []
  | op :: rest, s =>
      match addId op s with
      | some i => i :: issuedIds rest (step op s)
      | none => issuedIds rest (step op s)

/-- The id removed by `op` in state `s` when `op` is a successful
`delete_*` call, `none` otherwise. -/
def deletedId (op : Op) (s : CanisterState) : Option Nat :=
  match op with
  | .deleteTeam id =>
      match (delete_team id s).1 with
      | .ok _ => some id
      | _ => none
  | .deleteCoach id =>
      match (delete_coach id s).1 with
      | .ok _ => some id
      | _ => none
  | .deleteStadium id =>
      match (delete_stadium id s).1 with
      | .ok _ => some id
      | _ => none
  | _ => none

/-- Every key present in the region is at most the counter (every record
got its key from a past counter value). -/
def domBounded (s : CanisterState) : Prop :=
  ∀ id, s.region1 id ≠ none → id ≤ s.counter

/-- Every stored value sits under the key equal to its record's id
field. -/
def keyCoherent (s : CanisterState) : Prop :=
  ∀ k v, s.region1 k = some v → rawId v = k

/-- The Arsenal payload of the spec's scenario. -/
def arsenalPayload : TeamPayload :=
  { name := "Arsenal", manager := "Arteta", stadium := "Emirates" }

/-- A second valid team payload, used to exhibit id reuse. -/
def chelseaPayload : TeamPayload :=
  { name := "Chelsea", manager := "Maresca", stadium := "Stamford Bridge" }

/-! ### Claim theorems -/

/-- C9: on the fresh state (counter 0, all stores empty),
`add_team {Arsenal, Arteta, Emirates}` succeeds and returns exactly
`Team {id 1, Arsenal, Arteta, Emirates}`: the first allocated id is 1. -/
theorem first_add_team_returns_id_one :
    (add_team arsenalPayload freshState).1 =
      Res.ok { id := 1, name := "Arsenal", manager := "Arteta", stadium := "Emirates" } := by
  decide

/-- C1: the claim expects `get_coach 1` to answer `NotFound` after the
fresh-state `add_team` issued id 1, but because `COACH_STORAGE` is
initialized on the same `MemoryId::new(1)` as `TEAM_STORAGE`, the lookup
finds the team's bytes under key 1 and the candid decode as `Coach`
panics: the call traps instead of returning `NotFound`. -/
theorem get_coach_after_add_team_traps :
    (add_team arsenalPayload freshState).1 =
        Res.ok { id := 1, name := "Arsenal", manager := "Arteta", stadium := "Emirates" } ∧
      (get_coach 1 (add_team arsenalPayload freshState).2).1 = Res.trap := by
  constructor <;> decide

/-- C2: the claim expects `add_team` to leave the coach and stadium stores
unchanged, but all four storages share memory region 1, so one successful
`add_team` changes what `get_coach 1` and `get_stadium 1` observe (from
`NotFound` to a decode trap): the stores of the other kinds are not left
unchanged, and the counter is not the only shared state. -/
theorem add_team_disturbs_other_stores :
    (get_coach 1 freshState).1 =
        Res.err (Error.NotFound "Coach with ID 1 can not be found") ∧
      (get_coach 1 (add_team arsenalPayload freshState).2).1 = Res.trap ∧
      (get_stadium 1 freshState).1 =
        Res.err (Error.NotFound "Stadium with ID 1 not found") ∧
      (get_stadium 1 (add_team arsenalPayload freshState).2).1 = Res.trap := by
  refine ⟨by decide, by decide, by decide, by decide⟩

/-- C8: the source discards the result of the counter `set` call
(`let _ = counter.borrow_mut().set(current_value + 1)`), so a failed
counter commit does not fail the create: the record is still inserted and
`Ok` is returned with the counter left at 0, and the next `add_team`
reissues id 1, overwriting the first record — a duplicate id, which the
claim says can never happen. -/
theorem counter_set_failure_still_inserts :
    (add_team_core false arsenalPayload freshState).1 =
        Res.ok { id := 1, name := "Arsenal", manager := "Arteta", stadium := "Emirates" } ∧
      (add_team_core false arsenalPayload freshState).2.counter = 0 ∧
      (add_team_core false arsenalPayload freshState).2.region1 1 =
        some (RawVal.teamVal
          { id := 1, name := "Arsenal", manager := "Arteta", stadium := "Emirates" }) ∧
      (add_team chelseaPayload (add_team_core false arsenalPayload freshState).2).1 =
        Res.ok { id := 1, name := "Chelsea", manager := "Maresca", stadium := "Stamford Bridge" } := by
  refine ⟨by decide, by decide, by decide, by decide⟩

/-- C4: an `add_*` or `update_*` call whose payload has a required field
empty (capacity zero for Stadium) returns `EmptyFields` and returns the
state untouched — no id consumed, no record written — and for `update_*`
this happens whether or not the id exists, since validation runs before
the lookup. -/
theorem empty_fields_rejected_without_mutation (s : CanisterState) :
    (∀ p : TeamPayload, p.name = "" ∨ p.manager = "" ∨ p.stadium = "" →
      add_team p s =
          (Res.err (Error.EmptyFields "Please fill in all the required fields to add a team"), s) ∧
        ∀ id, update_team id p s =
          (Res.err (Error.EmptyFields "You must fill all of the required fields"), s)) ∧
      (∀ p : CoachPayload, p.name = "" ∨ p.team = "" →
        add_coach p s =
            (Res.err (Error.EmptyFields "You must fill in all the required fields"), s) ∧
          ∀ id, update_coach id p s =
            (Res.err (Error.EmptyFields "You must fill in all the required fields"), s)) ∧
      (∀ p : StadiumPayload, p.name = "" ∨ p.location = "" ∨ p.capacity = 0 →
        add_stadium p s =
            (Res.err (Error.EmptyFields "Please fill in all the required fields"), s) ∧
          ∀ id, update_stadium id p s =
            (Res.err (Error.EmptyFields "Please fill in all the required fields"), s)) := by
  refine ⟨fun p h => ⟨?_, fun id => ?_⟩, fun p h => ⟨?_, fun id => ?_⟩,
    fun p h => ⟨?_, fun id => ?_⟩⟩ <;>
    simp only [add_team, add_team_core, update_team, add_coach, add_coach_core,
      update_coach, add_stadium, add_stadium_core, update_stadium] <;>
    rw [if_pos h]

/-- C4 witness: the spec's scenario `add_stadium {name "", London, 60000}`
is rejected with `EmptyFields` and the fresh state is unchanged, and the
same payload is likewise rejected by `update_stadium` at id 7. -/
theorem empty_fields_rejected_without_mutation_witness :
    ((("" : String) = "" ∨ ("London" : String) = "" ∨ (60000 : Nat) = 0) ∧
        add_stadium { name := "", location := "London", capacity := 60000 } freshState =
          (Res.err (Error.EmptyFields "Please fill in all the required fields"), freshState)) ∧
      update_stadium 7 { name := "", location := "London", capacity := 60000 } freshState =
        (Res.err (Error.EmptyFields "Please fill in all the required fields"), freshState) :=
  ⟨⟨Or.inl rfl,
      ((empty_fields_rejected_without_mutation freshState).2.2
        { name := "", location := "London", capacity := 60000 } (Or.inl rfl)).1⟩,
    ((empty_fields_rejected_without_mutation freshState).2.2
      { name := "", location := "London", capacity := 60000 } (Or.inl rfl)).2 7⟩

/-- C5: round-trip — whenever an `add_*` call returns a record `r`, an
immediately following `get_*` at `r.id` returns exactly `r`, all fields
included. -/
theorem add_get_roundtrip (s : CanisterState) :
    (∀ (p : TeamPayload) (t : Team), (add_team p s).1 = Res.ok t →
      (get_team t.id (add_team p s).2).1 = Res.ok t) ∧
      (∀ (p : CoachPayload) (c : Coach), (add_coach p s).1 = Res.ok c →
        (get_coach c.id (add_coach p s).2).1 = Res.ok c) ∧
      (∀ (p : StadiumPayload) (st : Stadium), (add_stadium p s).1 = Res.ok st →
        (get_stadium st.id (add_stadium p s).2).1 = Res.ok st) := by
  refine ⟨fun p t h => ?_, fun p c h => ?_, fun p st h => ?_⟩
  · simp only [add_team, add_team_core] at h ⊢
    split at h
    · exact absurd h (by simp)
    · split at h <;> simp_all [get_team, setEntry] <;> (subst h; simp)
  · simp only [add_coach, add_coach_core] at h ⊢
    split at h
    · exact absurd h (by simp)
    · split at h <;> simp_all [get_coach, setEntry] <;> (subst h; simp)
  · simp only [add_stadium, add_stadium_core] at h ⊢
    split at h
    · exact absurd h (by simp)
    · split at h <;> simp_all [get_stadium, setEntry] <;> (subst h; simp)

/-- C5 witness: adding Arsenal to the fresh state and fetching id 1 gives
back the same record. -/
theorem add_get_roundtrip_witness :
    (get_team (1 : Nat) (add_team arsenalPayload freshState).2).1 =
      Res.ok { id := 1, name := "Arsenal", manager := "Arteta", stadium := "Emirates" } :=
  (add_get_roundtrip freshState).1 arsenalPayload
    { id := 1, name := "Arsenal", manager := "Arteta", stadium := "Emirates" } (by decide)

/-- C7: delete is terminal — when `delete_*` succeeds at an id, a
subsequent `get_*` and a subsequent `delete_*` at the same id and entity
kind both return `NotFound`. -/
theorem delete_is_terminal (s : CanisterState) (id : Nat) :
    ((delete_team id s).1 = Res.ok () →
      (get_team id (delete_team id s).2).1 =
          Res.err (Error.NotFound ("Team with ID " ++ toString id ++ " can not be found")) ∧
        (delete_team id (delete_team id s).2).1 =
          Res.err (Error.NotFound ("Team with ID " ++ toString id ++ " not found"))) ∧
      ((delete_coach id s).1 = Res.ok () →
        (get_coach id (delete_coach id s).2).1 =
            Res.err (Error.NotFound ("Coach with ID " ++ toString id ++ " can not be found")) ∧
          (delete_coach id (delete_coach id s).2).1 =
            Res.err (Error.NotFound ("Coach with ID " ++ toString id ++ " not found"))) ∧
      ((delete_stadium id s).1 = Res.ok () →
        (get_stadium id (delete_stadium id s).2).1 =
            Res.err (Error.NotFound ("Stadium with ID " ++ toString id ++ " not found")) ∧
          (delete_stadium id (delete_stadium id s).2).1 =
            Res.err (Error.NotFound ("Stadium with ID " ++ toString id ++ " not found"))) := by
  refine ⟨fun h => ?_, fun h => ?_, fun h => ?_⟩
  · simp only [delete_team] at h ⊢
    split at h <;> simp_all [get_team, removeEntry]
  · simp only [delete_coach] at h ⊢
    split at h <;> simp_all [get_coach, removeEntry]
  · simp only [delete_stadium] at h ⊢
    split at h <;> simp_all [get_stadium, removeEntry]

/-- C7 witness: after adding Arsenal (id 1) and deleting team 1, both
`get_team 1` and `delete_team 1` answer `NotFound`. -/
theorem delete_is_terminal_witness :
    (get_team 1 (delete_team 1 (add_team arsenalPayload freshState).2).2).1 =
        Res.err (Error.NotFound "Team with ID 1 can not be found") ∧
      (delete_team 1 (delete_team 1 (add_team arsenalPayload freshState).2).2).1 =
        Res.err (Error.NotFound "Team with ID 1 not found") :=
  (delete_is_terminal (add_team arsenalPayload freshState).2 1).1 (by decide)

/-! ### Counter behaviour of the handlers -/

lemma get_team_state (id : Nat) (s : CanisterState) : (get_team id s).2 = s := by
  unfold get_team; split <;> rfl

lemma get_coach_state (id : Nat) (s : CanisterState) : (get_coach id s).2 = s := by
  unfold get_coach; split <;> rfl

lemma get_stadium_state (id : Nat) (s : CanisterState) : (get_stadium id s).2 = s := by
  unfold get_stadium; split <;> rfl

lemma update_team_counter (id : Nat) (p : TeamPayload) (s : CanisterState) :
    (update_team id p s).2.counter = s.counter := by
  unfold update_team
  split
  · rfl
  · split <;> rfl

lemma update_coach_counter (id : Nat) (p : CoachPayload) (s : CanisterState) :
    (update_coach id p s).2.counter = s.counter := by
  unfold update_coach
  split
  · rfl
  · split <;> rfl

lemma update_stadium_counter (id : Nat) (p : StadiumPayload) (s : CanisterState) :
    (update_stadium id p s).2.counter = s.counter := by
  unfold update_stadium
  split
  · rfl
  · split <;> rfl

lemma delete_team_counter (id : Nat) (s : CanisterState) :
    (delete_team id s).2.counter = s.counter := by
  unfold delete_team; split <;> rfl

lemma delete_coach_counter (id : Nat) (s : CanisterState) :
    (delete_coach id s).2.counter = s.counter := by
  unfold delete_coach; split <;> rfl

lemma delete_stadium_counter (id : Nat) (s : CanisterState) :
    (delete_stadium id s).2.counter = s.counter := by
  unfold delete_stadium; split <;> rfl

/-- A (normal-path) `add_team` call either leaves the state untouched and
does not return `ok`, or bumps the counter by one and returns the record
carrying the bumped counter as id. -/
lemma add_team_cases (p : TeamPayload) (s : CanisterState) :
    ((add_team p s).2 = s ∧ ∀ t, (add_team p s).1 ≠ Res.ok t) ∨
      ((add_team p s).2.counter = s.counter + 1 ∧
        ∃ t, (add_team p s).1 = Res.ok t ∧ t.id = s.counter + 1) := by
  simp only [add_team, add_team_core]
  split
  · exact Or.inl ⟨rfl, by simp⟩
  · split
    · exact Or.inr ⟨by simp, _, rfl, rfl⟩
    · exact Or.inl ⟨rfl, by simp⟩
    · exact Or.inr ⟨by simp, _, rfl, rfl⟩

lemma add_coach_cases (p : CoachPayload) (s : CanisterState) :
    ((add_coach p s).2 = s ∧ ∀ c, (add_coach p s).1 ≠ Res.ok c) ∨
      ((add_coach p s).2.counter = s.counter + 1 ∧
        ∃ c, (add_coach p s).1 = Res.ok c ∧ c.id = s.counter + 1) := by
  simp only [add_coach, add_coach_core]
  split
  · exact Or.inl ⟨rfl, by simp⟩
  · split
    · exact Or.inr ⟨by simp, _, rfl, rfl⟩
    · exact Or.inl ⟨rfl, by simp⟩
    · exact Or.inr ⟨by simp, _, rfl, rfl⟩

lemma add_stadium_cases (p : StadiumPayload) (s : CanisterState) :
    ((add_stadium p s).2 = s ∧ ∀ st, (add_stadium p s).1 ≠ Res.ok st) ∨
      ((add_stadium p s).2.counter = s.counter + 1 ∧
        ∃ st, (add_stadium p s).1 = Res.ok st ∧ st.id = s.counter + 1) := by
  simp only [add_stadium, add_stadium_core]
  split
  · exact Or.inl ⟨rfl, by simp⟩
  · split
    · exact Or.inr ⟨by simp, _, rfl, rfl⟩
    · exact Or.inl ⟨rfl, by simp⟩
    · exact Or.inr ⟨by simp, _, rfl, rfl⟩

/-- A successful `add_*` returns exactly the bumped counter as id and
commits the bump. -/
lemma addId_some {op : Op} {s : CanisterState} {i : Nat}
    (h : addId op s = some i) :
    i = s.counter + 1 ∧ (step op s).counter = s.counter + 1 := by
  cases op <;> simp only [addId] at h
  all_goals try exact Option.noConfusion h
  case addTeam p =>
    rcases add_team_cases p s with ⟨_, hno⟩ | ⟨hc, t, hok, hid⟩
    · split at h
      · exact absurd (by assumption) (hno _)
      · exact absurd h (by simp)
    · rw [hok] at h
      simp only [step]
      simp only [Option.some.injEq] at h
      omega
  case addCoach p =>
    rcases add_coach_cases p s with ⟨_, hno⟩ | ⟨hc, c, hok, hid⟩
    · split at h
      · exact absurd (by assumption) (hno _)
      · exact absurd h (by simp)
    · rw [hok] at h
      simp only [step]
      simp only [Option.some.injEq] at h
      omega
  case addStadium p =>
    rcases add_stadium_cases p s with ⟨_, hno⟩ | ⟨hc, st, hok, hid⟩
    · split at h
      · exact absurd (by assumption) (hno _)
      · exact absurd h (by simp)
    · rw [hok] at h
      simp only [step]
      simp only [Option.some.injEq] at h
      omega

/-- A call that is not a successful `add_*` never changes the counter. -/
lemma addId_none_counter {op : Op} {s : CanisterState}
    (h : addId op s = none) : (step op s).counter = s.counter := by
  cases op <;> simp only [addId, step] at h ⊢
  case addTeam p =>
    rcases add_team_cases p s with ⟨hst, _⟩ | ⟨_, t, hok, _⟩
    · rw [hst]
    · rw [hok] at h; exact absurd h (by simp)
  case getTeam id => rw [get_team_state]
  case updateTeam id p => rw [update_team_counter]
  case deleteTeam id => rw [delete_team_counter]
  case addCoach p =>
    rcases add_coach_cases p s with ⟨hst, _⟩ | ⟨_, c, hok, _⟩
    · rw [hst]
    · rw [hok] at h; exact absurd h (by simp)
  case getCoach id => rw [get_coach_state]
  case updateCoach id p => rw [update_coach_counter]
  case deleteCoach id => rw [delete_coach_counter]
  case addStadium p =>
    rcases add_stadium_cases p s with ⟨hst, _⟩ | ⟨_, st, hok, _⟩
    · rw [hst]
    · rw [hok] at h; exact absurd h (by simp)
  case getStadium id => rw [get_stadium_state]
  case updateStadium id p => rw [update_stadium_counter]
  case deleteStadium id => rw [delete_stadium_counter]

/-- Every id issued along a run is strictly above the starting counter. -/
lemma issued_gt : ∀ (ops : List Op) (s : CanisterState) (i : Nat),
    i ∈ issuedIds ops s → s.counter < i := by
  intro ops
  induction ops with
  | nil => intro s i hi; simp [issuedIds] at hi
  | cons op rest ih =>
    intro s i hi
    simp only [issuedIds] at hi
    split at hi
    · rename_i j heq
      obtain ⟨hj, hc⟩ := addId_some heq
      rcases List.mem_cons.mp hi with rfl | h2
      · omega
      · have := ih (step op s) i h2
        omega
    · rename_i heq
      have := ih (step op s) i hi
      rw [addId_none_counter heq] at this
      exact this

/-- The issued-id list of any run is strictly increasing. -/
lemma issued_pairwise : ∀ (ops : List Op) (s : CanisterState),
    List.Pairwise (· < ·) (issuedIds ops s) := by
  intro ops
  induction ops with
  | nil => intro s; simp [issuedIds]
  | cons op rest ih =>
    intro s
    simp only [issuedIds]
    split
    · rename_i j heq
      obtain ⟨hj, hc⟩ := addId_some heq
      refine List.Pairwise.cons (fun i hi => ?_) (ih _)
      have := issued_gt rest (step op s) i hi
      omega
    · exact ih _

lemma delete_team_ok {id : Nat} {s : CanisterState}
    (h : (delete_team id s).1 = Res.ok ()) : s.region1 id ≠ none := by
  unfold delete_team at h
  split at h <;> simp_all

lemma delete_coach_ok {id : Nat} {s : CanisterState}
    (h : (delete_coach id s).1 = Res.ok ()) : s.region1 id ≠ none := by
  unfold delete_coach at h
  split at h <;> simp_all

lemma delete_stadium_ok {id : Nat} {s : CanisterState}
    (h : (delete_stadium id s).1 = Res.ok ()) : s.region1 id ≠ none := by
  unfold delete_stadium at h
  split at h <;> simp_all

/-- A successful `delete_*` removed a key that was present, and did not
touch the counter. -/
lemma deletedId_some {op : Op} {s : CanisterState} {d : Nat}
    (h : deletedId op s = some d) :
    s.region1 d ≠ none ∧ (step op s).counter = s.counter := by
  cases op <;> simp only [deletedId] at h
  all_goals try exact Option.noConfusion h
  case deleteTeam id =>
    split at h
    · simp only [Option.some.injEq] at h
      subst h
      exact ⟨delete_team_ok (by assumption), by simp [step, delete_team_counter]⟩
    · exact absurd h (by simp)
  case deleteCoach id =>
    split at h
    · simp only [Option.some.injEq] at h
      subst h
      exact ⟨delete_coach_ok (by assumption), by simp [step, delete_coach_counter]⟩
    · exact absurd h (by simp)
  case deleteStadium id =>
    split at h
    · simp only [Option.some.injEq] at h
      subst h
      exact ⟨delete_stadium_ok (by assumption), by simp [step, delete_stadium_counter]⟩
    · exact absurd h (by simp)

/-- C3: along any interleaving of calls, the ids returned by the
successful `add_team` / `add_coach` / `add_stadium` calls are issued in
strictly increasing order, hence pairwise distinct; and from any state
whose stored keys are bounded by the counter (true of every reachable
state), an id removed by a successful `delete_*` is never issued again by
any later sequence of calls. -/
theorem issued_ids_strict_mono_and_no_reuse (ops : List Op)
    (s : CanisterState) (hs : domBounded s) :
    List.Pairwise (· < ·) (issuedIds ops s) ∧
      (issuedIds ops s).Nodup ∧
      ∀ op d, deletedId op s = some d → d ∉ issuedIds ops (step op s) := by
  refine ⟨issued_pairwise ops s,
    List.Pairwise.imp (fun hlt => Nat.ne_of_lt hlt) (issued_pairwise ops s),
    fun op d hd hmem => ?_⟩
  obtain ⟨hne, hc⟩ := deletedId_some hd
  have hgt := issued_gt ops (step op s) d hmem
  have hle := hs d hne
  omega

/-- C3 witness: the fresh state has its (empty) key set bounded by the
counter, and a mixed add run from it issues the distinct ids 1, 2, 3. -/
theorem issued_ids_strict_mono_and_no_reuse_witness :
    domBounded freshState ∧
      (issuedIds [Op.addTeam arsenalPayload,
        Op.addCoach { name := "Arteta", team := "Arsenal" },
        Op.addStadium { name := "Emirates", location := "London", capacity := 60000 }]
        freshState).Nodup :=
  ⟨fun _ h => absurd rfl h,
    (issued_ids_strict_mono_and_no_reuse
      [Op.addTeam arsenalPayload,
        Op.addCoach { name := "Arteta", team := "Arsenal" },
        Op.addStadium { name := "Emirates", location := "London", capacity := 60000 }]
      freshState (fun _ h => absurd rfl h)).2.1⟩

/-! ### Key coherence -/

lemma coherent_set {r : Nat → Option RawVal} {k0 : Nat} {v0 : RawVal}
    (h : ∀ k v, r k = some v → rawId v = k) (hv : rawId v0 = k0) :
    ∀ k v, setEntry r k0 v0 k = some v → rawId v = k := by
  intro k v hkv
  unfold setEntry at hkv
  split at hkv
  · rename_i hk
    cases hkv
    rw [hv, hk]
  · exact h k v hkv

lemma coherent_remove {r : Nat → Option RawVal} {k0 : Nat}
    (h : ∀ k v, r k = some v → rawId v = k) :
    ∀ k v, removeEntry r k0 k = some v → rawId v = k := by
  intro k v hkv
  unfold removeEntry at hkv
  split at hkv
  · exact absurd hkv (by simp)
  · exact h k v hkv

/-- One call preserves key coherence of the shared region. -/
lemma keyCoherent_step {s : CanisterState} (h : keyCoherent s) (op : Op) :
    keyCoherent (step op s) := by
  cases op <;> simp only [step, keyCoherent] at h ⊢
  case addTeam p =>
    simp only [add_team, add_team_core]
    split
    · exact h
    · split
      · exact coherent_set h rfl
      · exact h
      · exact coherent_set h rfl
  case getTeam id => rw [get_team_state]; exact h
  case updateTeam id p =>
    simp only [update_team]
    split
    · exact h
    · split
      · rename_i t heq
        exact coherent_set h (h id (RawVal.teamVal t) heq)
      · exact h
      · exact h
  case deleteTeam id =>
    simp only [delete_team]
    split
    · exact coherent_remove h
    · exact h
    · exact h
  case addCoach p =>
    simp only [add_coach, add_coach_core]
    split
    · exact h
    · split
      · exact coherent_set h rfl
      · exact h
      · exact coherent_set h rfl
  case getCoach id => rw [get_coach_state]; exact h
  case updateCoach id p =>
    simp only [update_coach]
    split
    · exact h
    · split
      · rename_i c heq
        exact coherent_set h (h id (RawVal.coachVal c) heq)
      · exact h
      · exact h
  case deleteCoach id =>
    simp only [delete_coach]
    split
    · exact coherent_remove h
    · exact h
    · exact h
  case addStadium p =>
    simp only [add_stadium, add_stadium_core]
    split
    · exact h
    · split
      · exact coherent_set h rfl
      · exact h
      · exact coherent_set h rfl
  case getStadium id => rw [get_stadium_state]; exact h
  case updateStadium id p =>
    simp only [update_stadium]
    split
    · exact h
    · split
      · rename_i st heq
        exact coherent_set h (h id (RawVal.stadiumVal st) heq)
      · exact h
      · exact h
  case deleteStadium id =>
    simp only [delete_stadium]
    split
    · exact coherent_remove h
    · exact h
    · exact h

lemma keyCoherent_run : ∀ (ops : List Op) (s : CanisterState),
    keyCoherent s → keyCoherent (run ops s)
  | [], _, h => h
  | op :: rest, s, h => keyCoherent_run rest (step op s) (keyCoherent_step h op)

lemma keyCoherent_fresh : keyCoherent freshState :=
  fun _ _ h => Option.noConfusion h

/-- C10: in every state reachable from the fresh state by any sequence of
handler calls, every stored entry sits under the key equal to its
record's id field (this covers all four storages, which all view the one
shared region). -/
theorem stores_key_coherent (ops : List Op) :
    keyCoherent (run ops freshState) :=
  keyCoherent_run ops freshState keyCoherent_fresh

/-- C10 witness: after one `add_team` from fresh, the entry found under
key 1 carries id 1. -/
theorem stores_key_coherent_witness :
    rawId (RawVal.teamVal
      { id := 1, name := "Arsenal", manager := "Arteta", stadium := "Emirates" }) = 1 :=
  stores_key_coherent [Op.addTeam arsenalPayload] 1
    (RawVal.teamVal
      { id := 1, name := "Arsenal", manager := "Arteta", stadium := "Emirates" })
    (by decide)

/-- C6: in any reachable state, updating an id that holds a record of the
right kind with a valid payload returns the record whose id field is that
id and whose other fields are exactly the payload's, and stores exactly
that record under the key. -/
theorem update_overwrites_preserving_id (ops : List Op) (id : Nat) :
    (∀ (t : Team) (p : TeamPayload),
      (run ops freshState).region1 id = some (RawVal.teamVal t) →
      p.name ≠ "" → p.manager ≠ "" → p.stadium ≠ "" →
      (update_team id p (run ops freshState)).1 =
          Res.ok { id := id, name := p.name, manager := p.manager, stadium := p.stadium } ∧
        (update_team id p (run ops freshState)).2.region1 id =
          some (RawVal.teamVal
            { id := id, name := p.name, manager := p.manager, stadium := p.stadium })) ∧
      (∀ (c : Coach) (p : CoachPayload),
        (run ops freshState).region1 id = some (RawVal.coachVal c) →
        p.name ≠ "" → p.team ≠ "" →
        (update_coach id p (run ops freshState)).1 =
            Res.ok { id := id, name := p.name, team := p.team } ∧
          (update_coach id p (run ops freshState)).2.region1 id =
            some (RawVal.coachVal { id := id, name := p.name, team := p.team })) ∧
      (∀ (st : Stadium) (p : StadiumPayload),
        (run ops freshState).region1 id = some (RawVal.stadiumVal st) →
        p.name ≠ "" → p.location ≠ "" → p.capacity ≠ 0 →
        (update_stadium id p (run ops freshState)).1 =
            Res.ok { id := id, name := p.name, location := p.location, capacity := p.capacity } ∧
          (update_stadium id p (run ops freshState)).2.region1 id =
            some (RawVal.stadiumVal { id := id, name := p.name, location := p.location, capacity := p.capacity })) := by
  refine ⟨fun t p ht h1 h2 h3 => ?_, fun c p ht h1 h2 => ?_,
    fun st p ht h1 h2 h3 => ?_⟩
  · have hid : t.id = id := keyCoherent_run ops freshState keyCoherent_fresh id _ ht
    simp only [update_team, ht]
    rw [if_neg (by simp [h1, h2, h3])]
    simp [setEntry, ← hid]
  · have hid : c.id = id := keyCoherent_run ops freshState keyCoherent_fresh id _ ht
    simp only [update_coach, ht]
    rw [if_neg (by simp [h1, h2])]
    simp [setEntry, ← hid]
  · have hid : st.id = id := keyCoherent_run ops freshState keyCoherent_fresh id _ ht
    simp only [update_stadium, ht]
    rw [if_neg (by simp [h1, h2, h3])]
    simp [setEntry, ← hid]

/-- C6 witness: after adding Arsenal (id 1) from fresh, updating team 1
with the Chelsea payload returns and stores
`Team {id 1, Chelsea, Maresca, Stamford Bridge}`. -/
theorem update_overwrites_preserving_id_witness :
    (update_team 1 chelseaPayload (run [Op.addTeam arsenalPayload] freshState)).1 =
        Res.ok { id := 1, name := "Chelsea", manager := "Maresca", stadium := "Stamford Bridge" } ∧
      (update_team 1 chelseaPayload (run [Op.addTeam arsenalPayload] freshState)).2.region1 1 =
        some (RawVal.teamVal { id := 1, name := "Chelsea", manager := "Maresca", stadium := "Stamford Bridge" }) :=
  (update_overwrites_preserving_id [Op.addTeam arsenalPayload] 1).1
    { id := 1, name := "Arsenal", manager := "Arteta", stadium := "Emirates" }
    chelseaPayload (by decide) (by decide) (by decide) (by decide)

end Epl
